import Mathlib

/-!
Shallow embedding of `kubetest/azure.go` (e2e-win/test-infra): the acs-engine
Azure cluster lifecycle driver.  External effects (file system, network,
process execution, cloud API) are passed in as explicit oracle values: an
`Except String α` stands for a Go call that returns `(α, error)`, and a Go
runtime panic is modelled by the `GoResult.crash` constructor.  Every
definition mirrors the corresponding Go function; line references point into
`src/kubetest/azure.go`.
-/

set_option linter.unusedVariables false

/-- Result of a Go computation that can return normally, return an error, or
panic at runtime.  `crash` models a Go panic (index out of range, failed type
assertion); a panic is not an `error` value and unwinds past `return err`
handling. -/
inductive GoResult (α : Type) where
  | ok (a : α)
  | err (e : String)
  | crash (msg : String)
deriving Repr, DecidableEq

/-- Generic JSON value, the model of Go's `interface\x7b\x7d` holding a parsed
JSON document.  An object is a list of key/value pairs (Go
`map[string]interface\x7b\x7d`). -/
inductive Json where
  | null
  | bool (b : Bool)
  | num (n : Int)
  | str (s : String)
  | arr (xs : List Json)
  | obj (kvs : List (String × Json))

/-- Credentials from the TOML credentials file (`Creds`, azure.go:66-73). -/
structure Creds where
  clientID : String
  clientSecret : String
  tenantID : String
  subscriptionID : String
  storageAccountName : String
  storageAccountKey : String
deriving Repr, DecidableEq

/-- Zero value of `Creds` (all fields empty strings). -/
def zeroCreds : Creds := ⟨"", "", "", "", "", ""⟩

/-- The azure-specific command line flags (azure.go:42-64), modelled as an
explicit configuration record instead of package-level globals. -/
structure Flags where
  acsResourceName : String
  acsResourceGroupName : String
  acsLocation : String
  acsMasterVmSize : String
  acsAgentVmSize : String
  acsAdminUsername : String
  acsAdminPassword : String
  acsAgentPoolCount : Int
  acsAgentOSType : String
  acsTemplatePath : String
  acsDnsPrefix : String
  acsEngineURL : String
  acsEngineMD5 : String
  acsSSHPublicKeyPath : String
  acsWinBinariesURL : String
  acsHyperKubeURL : String
  acsCredentialsFile : String
  acsOrchestratorRelease : String
  acsWinZipBuildScript : String
  acsNetworkPlugin : String
deriving Repr, DecidableEq

/-- The `Cluster` aggregate (azure.go:79-99).  `ctx` is dropped (opaque), and
the `azureClient` pointer is abstracted to the boolean `hasAzureClient`;
`templateJSON`/`parametersJSON` are `none` while the Go maps are nil. -/
structure Cluster where
  credentials : Creds
  location : String
  resourceGroup : String
  name : String
  apiModelPath : String
  dnsPrefix : String
  templateJSON : Option (List (String × Json))
  parametersJSON : Option (List (String × Json))
  outputDir : String
  sshPublicKey : String
  adminUsername : String
  adminPassword : String
  masterVMSize : String
  agentVMSize : String
  acsCustomHyperKubeURL : String
  acsCustomWinBinariesURL : String
  acsEngineBinaryPath : String
  hasAzureClient : Bool

/-! ## Remote fetch retry loop (azure.go:282-293 and 444-455)

The bodies of the download loops in `getAcsEngine` and `getZipBuildScript`
are textually identical in the source; `fetchLoop` is that shared loop.
`hr i` is the outcome of `httpRead` on the zero-based attempt `i`. -/

/-- Error wrapping applied inside the download loop:
`fmt.Errorf("url=%s failed get %v: %v.", url, downloadPath, err)`. -/
def wrapFetchErr (url downloadPath e : String) : String :=
  "url=" ++ url ++ " failed get " ++ downloadPath ++ ": " ++ e ++ "."

/-- Observable behaviour of one run of the download loop: how many calls to
`httpRead` were made, the argument (in seconds) of each `sleep` performed, and
the loop's outcome (`ok` when the loop exits by `break` or by running out of
iterations, the wrapped last error when attempts are exhausted). -/
structure FetchRun where
  attempts : Nat
  sleeps : List Nat
  result : Except String Unit
deriving Repr

/-- Loop body: the Go `for i := 0; i < retry; i++` iterates over the index
list; `a` and `s` accumulate the attempt count and the sleeps performed. -/
def fetchLoopAux (hr : Nat → Except String Unit) (url dl : String) (retry : Nat) :
    List Nat → Nat → List Nat → FetchRun
  | [], a, s => ⟨a, s, Except.ok ()⟩
  | i :: rest, a, s =>
    match hr i with
    | Except.ok _ => ⟨a + 1, s, Except.ok ()⟩
    | Except.error e =>
      if i = retry - 1 then ⟨a + 1, s, Except.error (wrapFetchErr url dl e)⟩
      else fetchLoopAux hr url dl retry rest (a + 1) (s ++ [i])

/-- The download loop of `getAcsEngine` (azure.go:282-293) and
`getZipBuildScript` (azure.go:444-455): attempt, on failure wrap the error,
return it if this was the last attempt, otherwise log and
`sleep(time.Duration(i) * time.Second)`. -/
def fetchLoop (hr : Nat → Except String Unit) (url dl : String) (retry : Nat) : FetchRun :=
  fetchLoopAux hr url dl retry (List.range retry) 0 []

/-- Key lemma for the always-failing fetch: running the loop tail that starts
at index `i < retry` performs the remaining `retry - i` attempts, sleeps after
every failed attempt except the last, and ends with the wrapped error of
attempt `retry - 1`. -/
theorem fetchLoopAux_allFail (hr : Nat → Except String Unit) (errs : Nat → String)
    (url dl : String) (retry : Nat) (hfail : ∀ i, hr i = Except.error (errs i)) :
    ∀ m i a s, i < retry → m = retry - i →
      fetchLoopAux hr url dl retry (List.range' i (retry - i)) a s =
        ⟨a + (retry - i), s ++ List.range' i (retry - 1 - i),
          Except.error (wrapFetchErr url dl (errs (retry - 1)))⟩ := by
  intro m
  induction m with
  | zero => intro i a s hi hm; omega
  | succ k ih =>
    intro i a s hi hm
    have hri : retry - i = (retry - (i + 1)) + 1 := by omega
    rw [hri, List.range'_succ, fetchLoopAux, hfail i]
    by_cases hlast : i = retry - 1
    · simp only [hlast, if_true]
      have h1 : retry - (retry - 1) = 1 := by omega
      have h2 : retry - 1 - (retry - 1) = 0 := by omega
      subst hlast
      simp [h1, h2, hri.symm]
    · simp only [if_neg hlast]
      have hi1 : i + 1 < retry := by omega
      have ihs := ih (i + 1) (a + 1) (s ++ [i]) hi1 (by omega)
      have hcnt : retry - (i + 1) = retry - i - 1 := by omega
      rw [hcnt] at ihs ⊢
      rw [ihs]
      have hrange : List.range' i (retry - 1 - i) = i :: List.range' (i + 1) (retry - 1 - (i + 1)) := by
        have : retry - 1 - i = (retry - 1 - (i + 1)) + 1 := by omega
        rw [this, List.range'_succ]
      rw [hrange]
      simp only [FetchRun.mk.injEq]
      exact ⟨by omega, by simp, trivial⟩

/-- A fetch whose attempts all fail performs exactly `retry` attempts
(`retry ≥ 1`), sleeps `i` seconds after the failed attempt with zero-based
index `i` for every non-final attempt, and returns the wrapped error of the
final attempt. -/
theorem fetchLoop_allFail (hr : Nat → Except String Unit) (errs : Nat → String)
    (url dl : String) (n : Nat) (hn : 1 ≤ n)
    (hfail : ∀ i, hr i = Except.error (errs i)) :
    fetchLoop hr url dl n =
      ⟨n, List.range (n - 1), Except.error (wrapFetchErr url dl (errs (n - 1)))⟩ := by
  have h := fetchLoopAux_allFail hr errs url dl n hfail n 0 0 [] (by omega) (by omega)
  simpa [fetchLoop, List.range_eq_range'] using h

/-! ## getAcsEngine (azure.go:274-318) and getZipBuildScript (azure.go:436-458) -/

/-- Observable behaviour of one run of `getAcsEngine`: its result, the
receiver cluster after the call (`acsEngineBinaryPath` is updated only on full
success), the download-loop activity (`none` when `os.Create` failed before
the loop), whether the md5 checksum was computed and compared, and whether the
`tar` extraction was executed. -/
structure AcsEngineRun where
  result : Except String Unit
  cluster : Cluster
  loop : Option FetchRun
  md5Checked : Bool
  tarRan : Bool

/-- First component of Go `strings.Split(o, " ")` (azure.go:301): the prefix
of `o` up to its first space. -/
def firstSpaceField (o : String) : String := ⟨o.data.takeWhile (fun ch => ch ≠ ' ')⟩

/-- Tail of `getAcsEngine` after the (possibly skipped) checksum gate
(azure.go:306-316): `os.Getwd`, `tar -xzf ... --strip 1`, record
the extracted binary path `path.Join(cwd, "acs-engine")`. -/
def getAcsEngineTail (getwd : Except String String) (tarRun : Except String Unit)
    (run : FetchRun) (c : Cluster) (md5Checked : Bool) : AcsEngineRun :=
  match getwd with
  | Except.error e =>
    ⟨Except.error ("Unable to get current directory: " ++ e ++ " ."), c, some run, md5Checked, false⟩
  | Except.ok cwd =>
    match tarRun with
    | Except.error e => ⟨Except.error e, c, some run, md5Checked, true⟩
    | Except.ok _ =>
      ⟨Except.ok (), { c with acsEngineBinaryPath := cwd ++ "/acs-engine" }, some run, md5Checked, true⟩

/-- The fetch of the acs-engine release archive (azure.go:274-318).
`createFile` is the outcome of `os.Create(downloadPath)`, `hr i` the outcome
of `httpRead` on attempt `i`, `md5Out` the output of the `md5sum` command,
`getwd`/`tarRun` the outcomes of `os.Getwd` and of the `tar` extraction.
The checksum is compared only when the `acsengine-md5-sum` flag (`md5flag`)
is non-empty; on a mismatch the function returns
`"Wrong md5 sum for acs-engine."` before any extraction. -/
def getAcsEngine (url md5flag home : String) (createFile : Except String Unit)
    (hr : Nat → Except String Unit) (md5Out : Except String String)
    (getwd : Except String String) (tarRun : Except String Unit)
    (retry : Nat) (c : Cluster) : AcsEngineRun :=
  let downloadPath := home ++ "/acs-engine.tar.gz"
  match createFile with
  | Except.error e => ⟨Except.error e, c, none, false, false⟩
  | Except.ok _ =>
    let run := fetchLoop hr url downloadPath retry
    match run.result with
    | Except.error e => ⟨Except.error e, c, some run, false, false⟩
    | Except.ok _ =>
      if md5flag ≠ "" then
        match md5Out with
        | Except.error e => ⟨Except.error e, c, some run, true, false⟩
        | Except.ok o =>
          if firstSpaceField o ≠ md5flag then
            ⟨Except.error "Wrong md5 sum for acs-engine.", c, some run, true, false⟩
          else getAcsEngineTail getwd tarRun run c true
      else getAcsEngineTail getwd tarRun run c false

/-- Observable behaviour of one run of `getZipBuildScript`: the returned
`(string, error)` pair and the download-loop activity. -/
structure ZipScriptRun where
  result : Except String String
  loop : Option FetchRun

/-- The fetch of the Windows zip build script (azure.go:436-458).  On success
returns the download path `path.Join(HOME, "build-win-zip.sh")`; the error of
`f.Chmod(0744)` is discarded by the source. -/
def getZipBuildScript (buildScriptUrl home : String) (createFile : Except String Unit)
    (hr : Nat → Except String Unit) (retry : Nat) : ZipScriptRun :=
  let downloadPath := home ++ "/build-win-zip.sh"
  match createFile with
  | Except.error e => ⟨Except.error e, none⟩
  | Except.ok _ =>
    let run := fetchLoop hr buildScriptUrl downloadPath retry
    match run.result with
    | Except.error e => ⟨Except.error e, some run⟩
    | Except.ok _ => ⟨Except.ok downloadPath, some run⟩

/-! ## Artifact builder (azure.go:394-434, 460-478) -/

/-- Builds the custom hyperkube image (azure.go:394-407). `script` is the
outcome of running `hack/dev-push-hyperkube.sh`; on success the receiver's
`acsCustomHyperKubeURL` becomes `REGISTRY + "/hyperkube-amd64:" + VERSION`
where `VERSION` was set from `BUILD_NUMBER`. -/
def buildHyperKube (registry buildNumber : String) (script : Except String Unit)
    (c : Cluster) : Except String Unit × Cluster :=
  match script with
  | Except.error e => (Except.error e, c)
  | Except.ok _ =>
    (Except.ok (), { c with acsCustomHyperKubeURL := registry ++ "/hyperkube-amd64:" ++ buildNumber })

/-- Uploads the zip to blob storage (azure.go:409-434).  `openFile` is the
outcome of `os.Open(zipPath)`; `upload` the outcome of
`UploadFileToBlockBlob`, whose success value is the resulting blob URL that is
recorded as `acsCustomWinBinariesURL`. -/
def uploadZip (openFile : Except String Unit) (upload : Except String String)
    (zipPath : String) (c : Cluster) : Except String Unit × Cluster :=
  match openFile with
  | Except.error e =>
    (Except.error ("Failed to open file " ++ zipPath ++ " . Error " ++ e), c)
  | Except.ok _ =>
    match upload with
    | Except.error e1 => (Except.error e1, c)
    | Except.ok blobUrl => (Except.ok (), { c with acsCustomWinBinariesURL := blobUrl })

/-- Builds and uploads the Windows binaries zip (azure.go:460-478): fetch the
build script with 2 attempts, run it, upload the produced
`path.Join(HOME, BUILD_NUMBER + ".zip")`. -/
def buildWinZip (winZipBuildScript home buildNumber : String)
    (zipCreate : Except String Unit) (zipHr : Nat → Except String Unit)
    (scriptRun : Except String Unit) (openFile : Except String Unit)
    (upload : Except String String) (c : Cluster) : Except String Unit × Cluster :=
  let zipName := buildNumber ++ ".zip"
  let zipPath := home ++ "/" ++ zipName
  match (getZipBuildScript winZipBuildScript home zipCreate zipHr 2).result with
  | Except.error e => (Except.error e, c)
  | Except.ok _buildScriptPath =>
    match scriptRun with
    | Except.error e => (Except.error e, c)
    | Except.ok _ => uploadZip openFile upload zipPath c

/-! ## ClusterSpec model (the AcsEngineApiModel literal, azure.go:182-272) -/

/-- The `KubernetesConfig` fragment of the api model.  The two custom fields
are the empty string when unset (Go zero value with `omitempty`). -/
structure KubernetesConfig where
  networkPlugin : String
  customHyperkubeImage : String
  customWindowsPackageURL : String
deriving Repr, DecidableEq

/-- The `OrchestratorProfile` fragment of the api model. -/
structure OrchestratorProfile where
  orchestratorType : String
  orchestratorRelease : String
  kubernetesConfig : KubernetesConfig
deriving Repr, DecidableEq

/-- The `MasterProfile` fragment of the api model. -/
structure MasterProfile where
  count : Nat
  dnsPrefix : String
  vmSize : String
  ipAddressCount : Nat
deriving Repr, DecidableEq

/-- One `AgentPoolProfile` entry of the api model. -/
structure AgentPoolProfile where
  name : String
  vmSize : String
  count : Int
  osType : String
  availabilityProfile : String
  ipAddressCount : Nat
  preProvisionExtension : List (String × String)
  extensions : List (List (String × String))
deriving Repr, DecidableEq

/-- A `PublicKey` entry of the Linux profile. -/
structure PublicKey where
  keyData : String
deriving Repr, DecidableEq

/-- The `SSH` fragment of the Linux profile. -/
structure SSH where
  publicKeys : List PublicKey
deriving Repr, DecidableEq

/-- The `LinuxProfile` fragment of the api model. -/
structure LinuxProfile where
  adminUsername : String
  sshKeys : SSH
deriving Repr, DecidableEq

/-- The `WindowsProfile` fragment of the api model. -/
structure WindowsProfile where
  adminUsername : String
  adminPassword : String
deriving Repr, DecidableEq

/-- The `ServicePrincipalProfile` fragment of the api model. -/
structure ServicePrincipalProfile where
  clientID : String
  secret : String
deriving Repr, DecidableEq

/-- The `Properties` fragment of the api model. -/
structure Properties where
  orchestratorProfile : OrchestratorProfile
  masterProfile : MasterProfile
  agentPoolProfiles : List AgentPoolProfile
  linuxProfile : LinuxProfile
  windowsProfile : WindowsProfile
  servicePrincipalProfile : ServicePrincipalProfile
  extensionProfiles : List (List (String × String))
deriving Repr, DecidableEq

/-- The top-level `AcsEngineApiModel` (the declarative ClusterSpec). -/
structure AcsEngineApiModel where
  apiVersion : String
  location : String
  name : String
  tags : List (String × String)
  properties : Properties
deriving Repr, DecidableEq

/-- The api model literal constructed at azure.go:183-253, before the two
custom-URL override blocks.  `now` is the value of `time.Now().String()`. -/
def mkApiModel (fl : Flags) (now : String) (c : Cluster) : AcsEngineApiModel :=
  { apiVersion := "vlabs"
    location := c.location
    name := c.name
    tags := [("date", now)]
    properties := {
      orchestratorProfile := {
        orchestratorType := "Kubernetes"
        orchestratorRelease := fl.acsOrchestratorRelease
        kubernetesConfig := {
          networkPlugin := fl.acsNetworkPlugin
          customHyperkubeImage := ""
          customWindowsPackageURL := "" } }
      masterProfile := {
        count := 1
        dnsPrefix := c.dnsPrefix
        vmSize := fl.acsMasterVmSize
        ipAddressCount := 200 }
      agentPoolProfiles := [{
        name := "agentpool0"
        vmSize := fl.acsAgentVmSize
        count := fl.acsAgentPoolCount
        osType := fl.acsAgentOSType
        availabilityProfile := "AvailabilitySet"
        ipAddressCount := 200
        preProvisionExtension := [("name", "node_setup"), ("singleOrAll", "all")]
        extensions := [[("name", "winrm")]] }]
      linuxProfile := {
        adminUsername := fl.acsAdminUsername
        sshKeys := { publicKeys := [{ keyData := c.sshPublicKey }] } }
      windowsProfile := {
        adminUsername := fl.acsAdminUsername
        adminPassword := fl.acsAdminPassword }
      servicePrincipalProfile := {
        clientID := c.credentials.clientID
        secret := c.credentials.clientSecret }
      extensionProfiles := [
        [("name", "node_setup"), ("version", "v1"),
         ("rootURL", "https://k8swin.blob.core.windows.net/k8s-windows/preprovision_extensions/"),
         ("script", "node_setup.ps1")],
        [("name", "winrm"), ("version", "v1")]] } }

/-- Field update `v.Properties.OrchestratorProfile.KubernetesConfig.CustomHyperkubeImage = u`. -/
def setCustomHyperkubeImage (v : AcsEngineApiModel) (u : String) : AcsEngineApiModel :=
  { v with properties := { v.properties with orchestratorProfile :=
    { v.properties.orchestratorProfile with kubernetesConfig :=
      { v.properties.orchestratorProfile.kubernetesConfig with customHyperkubeImage := u } } } }

/-- Field update `v.Properties.OrchestratorProfile.KubernetesConfig.CustomWindowsPackageURL = u`. -/
def setCustomWindowsPackageURL (v : AcsEngineApiModel) (u : String) : AcsEngineApiModel :=
  { v with properties := { v.properties with orchestratorProfile :=
    { v.properties.orchestratorProfile with kubernetesConfig :=
      { v.properties.orchestratorProfile.kubernetesConfig with customWindowsPackageURL := u } } } }

/-- The api model as it stands when it is serialized: the literal of
azure.go:183-253 with the two override blocks of azure.go:254-264 applied.
The flag value wins over the value recorded on the Cluster; the Cluster value
is used only when the flag is empty. -/
def generateTemplateSpec (fl : Flags) (now : String) (c : Cluster) : AcsEngineApiModel :=
  let v := mkApiModel fl now c
  let v :=
    if fl.acsHyperKubeURL ≠ "" then setCustomHyperkubeImage v fl.acsHyperKubeURL
    else if c.acsCustomHyperKubeURL ≠ "" then setCustomHyperkubeImage v c.acsCustomHyperKubeURL
    else v
  if fl.acsWinBinariesURL ≠ "" then setCustomWindowsPackageURL v fl.acsWinBinariesURL
  else if c.acsCustomWinBinariesURL ≠ "" then setCustomWindowsPackageURL v c.acsCustomWinBinariesURL
  else v

/-- Observable behaviour of one run of `generateTemplate`: its result, the
receiver after the call, and the spec value that was serialized. -/
structure GenTemplateRun where
  result : Except String Unit
  cluster : Cluster
  spec : AcsEngineApiModel

/-- Specification generation (azure.go:182-272).  `marshal` is the outcome of
`json.MarshalIndent`; its error is DISCARDED by the source
(`apiModel, _ := json.MarshalIndent(v, "", "  ")`, azure.go:265), in which
case the written content is the nil byte slice, modelled as `""`.  `write s`
is the outcome of `ioutil.WriteFile(c.apiModelPath, s, 0644)`; only a write
failure produces an error return.  `c.apiModelPath` is set to
`path.Join(c.outputDir, "kubernetes.json")` before the write, so it is updated
even when the write fails. -/
def generateTemplate (fl : Flags) (now : String)
    (marshal : AcsEngineApiModel → Except String String)
    (write : String → Except String Unit) (c : Cluster) : GenTemplateRun :=
  let v := generateTemplateSpec fl now c
  let apiModel :=
    match marshal v with
    | Except.ok s => s
    | Except.error _ => ""
  let c := { c with apiModelPath := c.outputDir ++ "/kubernetes.json" }
  match write apiModel with
  | Except.error e => ⟨Except.error ("Cannot write to file: " ++ e), c, v⟩
  | Except.ok _ => ⟨Except.ok (), c, v⟩

/-! ## Constructor (azure.go:101-180) -/

/-- Flag validation and defaulting (azure.go:116-139).  `home` is
`os.Getenv("HOME")` and `uuid` the generated v1 UUID; the function mutates the
global flags, modelled by returning the updated record. -/
def checkParams (home uuid : String) (fl : Flags) : Except String Flags :=
  if fl.acsCredentialsFile = "" then Except.error "No credentials file path specified"
  else
    let fl :=
      if fl.acsResourceName = "" then { fl with acsResourceName := "kubetest-" ++ uuid } else fl
    let fl :=
      if fl.acsResourceGroupName = "" then
        { fl with acsResourceGroupName := fl.acsResourceName ++ "-rg" }
      else fl
    let fl :=
      if fl.acsDnsPrefix = "" then { fl with acsDnsPrefix := fl.acsResourceName } else fl
    let fl :=
      if fl.acsSSHPublicKeyPath = "" then
        { fl with acsSSHPublicKeyPath := home ++ "/.ssh/id_rsa.pub" }
      else fl
    if fl.acsAdminUsername = "" then
      Except.error "Error parsing flags. No admin username specified"
    else if fl.acsAdminPassword = "" then
      Except.error "Error parting flags. No admin password specified."
    else Except.ok fl

/-- Credential loading (azure.go:101-114).  `readFile` is the outcome of
`ioutil.ReadFile(*acsCredentialsFile)` and `tomlParse` the outcome of
`toml.Unmarshal`.  The source assigns `c.credentials = &config.Creds` before
checking the parse error, so on a parse error the receiver holds the
(partially filled) config value, modelled as the zero value. -/
def getAzCredentials (credsFile : String) (readFile : Except String String)
    (tomlParse : String → Except String Creds) (c : Cluster) :
    Except String Unit × Cluster :=
  match readFile with
  | Except.error e =>
    (Except.error ("Error reading credentials file " ++ credsFile ++ " " ++ e), c)
  | Except.ok content =>
    match tomlParse content with
    | Except.error e =>
      (Except.error ("Error parsing credentials file " ++ credsFile ++ " " ++ e),
        { c with credentials := zeroCreds })
    | Except.ok creds => (Except.ok (), { c with credentials := creds })

/-- ARM client acquisition (azure.go:352-364).  `client` is the outcome of
`getAzureClient`; on success the receiver records the authenticated client. -/
def getARMClient (client : Except String Unit) (c : Cluster) : Except String Cluster :=
  match client with
  | Except.error e => Except.error ("Error trying to get Azure Client: " ++ e)
  | Except.ok _ => Except.ok { c with hasAzureClient := true }

/-- The Cluster constructor `newAcsEngine` (azure.go:141-180).  The error of
`ioutil.TempDir` is discarded by the source (`tempdir, _ := ...`), and — the
point of interest — the error of `c.getAzCredentials()` at azure.go:165 is
discarded as well: the call's result is not checked, so a credentials read or
parse failure does NOT abort construction. -/
def newAcsEngine (fl : Flags) (home uuid tempdir : String)
    (sshKeyRead : Except String String)
    (credsRead : Except String String) (tomlParse : String → Except String Creds)
    (armClient : Except String Unit)
    (setenvConformanceTest setenvConformanceProvider : Except String Unit) :
    Except String Cluster :=
  match checkParams home uuid fl with
  | Except.error e => Except.error ("Error creating Azure K8S cluster: " ++ e)
  | Except.ok fl =>
    match sshKeyRead with
    | Except.error e =>
      Except.error ("Error reading SSH Key " ++ fl.acsSSHPublicKeyPath ++ " " ++ e)
    | Except.ok sshKey =>
      let c : Cluster := {
        credentials := zeroCreds
        location := fl.acsLocation
        resourceGroup := fl.acsResourceGroupName
        name := fl.acsResourceName
        apiModelPath := fl.acsTemplatePath
        dnsPrefix := fl.acsDnsPrefix
        templateJSON := none
        parametersJSON := none
        outputDir := tempdir
        sshPublicKey := sshKey
        adminUsername := ""
        adminPassword := ""
        masterVMSize := ""
        agentVMSize := ""
        acsCustomHyperKubeURL := ""
        acsCustomWinBinariesURL := ""
        acsEngineBinaryPath := "acs-engine"
        hasAzureClient := false }
      let c := (getAzCredentials fl.acsCredentialsFile credsRead tomlParse c).2
      match getARMClient armClient c with
      | Except.error e => Except.error ("Failed to generate ARM client: " ++ e)
      | Except.ok c =>
        match setenvConformanceTest with
        | Except.error e => Except.error e
        | Except.ok _ =>
          match setenvConformanceProvider with
          | Except.error e => Except.error e
          | Except.ok _ => Except.ok c

/-! ## Deployment expander (azure.go:320-350) -/

/-- ARM template generation (azure.go:320-325): runs
`acsEngineBinaryPath generate apiModelPath --output-directory outputDir`;
`run` is the command outcome. -/
def generateARMTemplates (acsEngineBinaryPath apiModelPath outputDir : String)
    (run : Except String Unit) : Except String Unit :=
  match run with
  | Except.error e => Except.error ("Failed to generate ARM templates: " ++ e ++ ".")
  | Except.ok _ => Except.ok ()

/-- Lookup of a key in a parsed JSON object (Go map indexing `m[k]`, which
yields the nil interface when the key is absent). -/
def lookupKey (kvs : List (String × Json)) (k : String) : Option Json :=
  (kvs.find? (fun kv => kv.1 == k)).map (fun kv => kv.2)

/-- Go type assertion `x.(map[string]interface\x7b\x7d)`: succeeds on an
object, panics on a non-object value and on the nil interface (absent key). -/
def goAssertObj : Option Json → GoResult (List (String × Json))
  | some (Json.obj kvs) => GoResult.ok kvs
  | some _ => GoResult.crash "interface conversion: value is not an object"
  | none => GoResult.crash "interface conversion: interface is nil"

/-- Loading of the generated ARM artifacts (azure.go:327-350).
`templateRead`/`parametersRead` are the outcomes of reading
`azuredeploy.json` / `azuredeploy.parameters.json`; `parseObj s` is the
outcome of `json.Unmarshal(s, &m)` into a `map[string]interface\x7b\x7d`.
The final line unwraps the parameters document with the unchecked type
assertion `c.parametersJSON["parameters"].(map[string]interface\x7b\x7d)`
(azure.go:347), which panics when the document has no `parameters` object. -/
def loadARMTemplates (templateRead parametersRead : Except String String)
    (parseObj : String → Except String (List (String × Json)))
    (c : Cluster) : GoResult Unit × Cluster :=
  match templateRead with
  | Except.error e => (GoResult.err ("Error reading ARM template file: " ++ e ++ "."), c)
  | Except.ok templateBytes =>
    match parseObj templateBytes with
    | Except.error e => (GoResult.err ("Error unmarshall template " ++ e), c)
    | Except.ok tj =>
      let c := { c with templateJSON := some tj }
      match parametersRead with
      | Except.error e => (GoResult.err ("Error reading ARM parameters file: " ++ e), c)
      | Except.ok parametersBytes =>
        match parseObj parametersBytes with
        | Except.error e => (GoResult.err ("Error unmarshall parameters " ++ e), c)
        | Except.ok pj =>
          let c := { c with parametersJSON := some pj }
          match goAssertObj (lookupKey pj "parameters") with
          | GoResult.ok inner => (GoResult.ok (), { c with parametersJSON := some inner })
          | GoResult.err e => (GoResult.err e, c)
          | GoResult.crash m => (GoResult.crash m, c)

/-! ## Deployment executor (azure.go:366-392) -/

/-- Actions performed by `createCluster`, in order. -/
inductive CCAction where
  | setEnvKubeconfig (path : String)
  | ensureResourceGroup
  | validateDeployment
  | deployTemplate
deriving Repr, DecidableEq

/-- Error message of a failed `ValidateDeployment`
(`fmt.Errorf("Template invalid: %v", err)`). -/
def validationFailureMsg (e : String) : String := "Template invalid: " ++ e

/-- Error message of a failed `DeployTemplate`
(`fmt.Errorf("Cannot deploy: %v", err)`). -/
def deployFailureMsg (e : String) : String := "Cannot deploy: " ++ e

/-- Observable behaviour of one run of `createCluster`: its result and the
ordered list of actions it performed. -/
structure CreateClusterRun where
  result : GoResult Unit
  actions : List CCAction
deriving Repr, DecidableEq

/-- Deployment execution (azure.go:366-392).  `kubecfgDir` is the name list
returned by `ioutil.ReadDir(path.Join(c.outputDir, "kubeconfig"))`, whose
error is discarded (`kubecfgDir, _ := ...`); the source indexes
`kubecfgDir[0]` unguarded, which panics on an empty listing.  Otherwise:
export KUBECONFIG, ensure the resource group, validate the deployment, then
submit it. -/
def createCluster (kubecfgDir : List String)
    (ensureRG validate deploy : Except String Unit) (c : Cluster) : CreateClusterRun :=
  match kubecfgDir with
  | [] => ⟨GoResult.crash "runtime error: index out of range", []⟩
  | first :: _ =>
    let kubecfg := c.outputDir ++ "/kubeconfig/" ++ first
    let acts := [CCAction.setEnvKubeconfig kubecfg]
    match ensureRG with
    | Except.error e =>
      ⟨GoResult.err ("Could not ensure resource group: " ++ e),
        acts ++ [CCAction.ensureResourceGroup]⟩
    | Except.ok _ =>
      let acts := acts ++ [CCAction.ensureResourceGroup]
      match validate with
      | Except.error e =>
        ⟨GoResult.err (validationFailureMsg e), acts ++ [CCAction.validateDeployment]⟩
      | Except.ok _ =>
        let acts := acts ++ [CCAction.validateDeployment]
        match deploy with
        | Except.error e =>
          ⟨GoResult.err (deployFailureMsg e), acts ++ [CCAction.deployTemplate]⟩
        | Except.ok _ => ⟨GoResult.ok (), acts ++ [CCAction.deployTemplate]⟩

/-! ## Lifecycle orchestrator: Up (azure.go:480-520)

`Up` has a VALUE receiver (`func (c Cluster) Up() error`): the pipeline
stages, though they take pointer receivers, are invoked on Up's local copy of
the Cluster, so their field writes never reach the caller.  `Up` below returns
that final local copy together with the error result and the ordered list of
stages that were attempted; the Go function itself returns only the error,
which `UpGo`/`callUp` capture. -/

/-- The seven pipeline stages of `Up`, in source order. -/
inductive Stage where
  | buildHyperKube
  | buildWinZip
  | generateTemplate
  | getAcsEngine
  | generateARMTemplates
  | loadARMTemplates
  | createCluster
deriving Repr, DecidableEq

/-- All external-effect oracles one run of `Up` may consult. -/
structure UpEnv where
  home : String
  registry : String
  buildNumber : String
  hyperKubeScript : Except String Unit
  zipCreate : Except String Unit
  zipHttpRead : Nat → Except String Unit
  zipScriptRun : Except String Unit
  zipOpen : Except String Unit
  zipUpload : Except String String
  now : String
  marshal : AcsEngineApiModel → Except String String
  writeSpec : String → Except String Unit
  engineCreate : Except String Unit
  engineHttpRead : Nat → Except String Unit
  md5Output : Except String String
  getwd : Except String String
  tarRun : Except String Unit
  armGen : Except String Unit
  templateRead : Except String String
  parametersRead : Except String String
  parseObj : String → Except String (List (String × Json))
  kubecfgDir : List String
  ensureRG : Except String Unit
  validateDeployment : Except String Unit
  deployTemplate : Except String Unit

/-- Observable behaviour of one run of `Up`: the result, the final state of
Up's local copy of the receiver, and the stages attempted, in order. -/
structure UpRun where
  result : GoResult Unit
  cluster : Cluster
  trace : List Stage

/-- Stage-identifying context that `Up` wraps around a stage's error
(azure.go:486, 492, 498, 504, 509, 513, 517). -/
def stageWrap : Stage → String → String
  | Stage.buildHyperKube, e => "Problem building hyperkube " ++ e
  | Stage.buildWinZip, e => "Problem building windowsZipFile " ++ e
  | Stage.generateTemplate, e => "Failed to generate apiModel: " ++ e
  | Stage.getAcsEngine, e => "Failed to get ACS Engine binary: " ++ e
  | Stage.generateARMTemplates, e => "Failed to generate ARM templates: " ++ e
  | Stage.loadARMTemplates, e => "Error loading ARM templates: " ++ e
  | Stage.createCluster, e => "Error creating cluster: " ++ e

/-- Last chunk of `Up` (azure.go:515-519): `createCluster` and its wrap. -/
def upFromCreateCluster (env : UpEnv) (c : Cluster) (tr : List Stage) : UpRun :=
  let r := createCluster env.kubecfgDir env.ensureRG env.validateDeployment env.deployTemplate c
  match r.result with
  | GoResult.err e =>
    ⟨GoResult.err (stageWrap Stage.createCluster e), c, tr ++ [Stage.createCluster]⟩
  | GoResult.crash m => ⟨GoResult.crash m, c, tr ++ [Stage.createCluster]⟩
  | GoResult.ok _ => ⟨GoResult.ok (), c, tr ++ [Stage.createCluster]⟩

/-- Chunk of `Up` from azure.go:511: `loadARMTemplates` and its wrap. -/
def upFromLoadARM (env : UpEnv) (c : Cluster) (tr : List Stage) : UpRun :=
  match loadARMTemplates env.templateRead env.parametersRead env.parseObj c with
  | (GoResult.err e, c1) =>
    ⟨GoResult.err (stageWrap Stage.loadARMTemplates e), c1, tr ++ [Stage.loadARMTemplates]⟩
  | (GoResult.crash m, c1) => ⟨GoResult.crash m, c1, tr ++ [Stage.loadARMTemplates]⟩
  | (GoResult.ok _, c1) => upFromCreateCluster env c1 (tr ++ [Stage.loadARMTemplates])

/-- Chunk of `Up` from azure.go:507: `generateARMTemplates` and its wrap. -/
def upFromGenARM (env : UpEnv) (c : Cluster) (tr : List Stage) : UpRun :=
  match generateARMTemplates c.acsEngineBinaryPath c.apiModelPath c.outputDir env.armGen with
  | Except.error e =>
    ⟨GoResult.err (stageWrap Stage.generateARMTemplates e), c, tr ++ [Stage.generateARMTemplates]⟩
  | Except.ok _ => upFromLoadARM env c (tr ++ [Stage.generateARMTemplates])

/-- Chunk of `Up` from azure.go:501: the conditional `getAcsEngine(2)`. -/
def upFromGetAcsEngine (fl : Flags) (env : UpEnv) (c : Cluster) (tr : List Stage) : UpRun :=
  if fl.acsEngineURL ≠ "" then
    let r := getAcsEngine fl.acsEngineURL fl.acsEngineMD5 env.home env.engineCreate
      env.engineHttpRead env.md5Output env.getwd env.tarRun 2 c
    match r.result with
    | Except.error e =>
      ⟨GoResult.err (stageWrap Stage.getAcsEngine e), r.cluster, tr ++ [Stage.getAcsEngine]⟩
    | Except.ok _ => upFromGenARM env r.cluster (tr ++ [Stage.getAcsEngine])
  else upFromGenARM env c tr

/-- Chunk of `Up` from azure.go:495: the conditional `generateTemplate`. -/
def upFromGenTemplate (fl : Flags) (env : UpEnv) (c : Cluster) (tr : List Stage) : UpRun :=
  if c.apiModelPath = "" then
    let r := generateTemplate fl env.now env.marshal env.writeSpec c
    match r.result with
    | Except.error e =>
      ⟨GoResult.err (stageWrap Stage.generateTemplate e), r.cluster, tr ++ [Stage.generateTemplate]⟩
    | Except.ok _ => upFromGetAcsEngine fl env r.cluster (tr ++ [Stage.generateTemplate])
  else upFromGetAcsEngine fl env c tr

/-- Chunk of `Up` from azure.go:489: the conditional `buildWinZip`. -/
def upFromWinZip (fl : Flags) (env : UpEnv) (c : Cluster) (tr : List Stage) : UpRun :=
  if fl.acsWinBinariesURL = "" then
    match buildWinZip fl.acsWinZipBuildScript env.home env.buildNumber env.zipCreate
      env.zipHttpRead env.zipScriptRun env.zipOpen env.zipUpload c with
    | (Except.error e, c1) =>
      ⟨GoResult.err (stageWrap Stage.buildWinZip e), c1, tr ++ [Stage.buildWinZip]⟩
    | (Except.ok _, c1) => upFromGenTemplate fl env c1 (tr ++ [Stage.buildWinZip])
  else upFromGenTemplate fl env c tr

/-- The full `Up` pipeline (azure.go:480-520), starting with the conditional
`buildHyperKube` at azure.go:483. -/
def Up (fl : Flags) (env : UpEnv) (c : Cluster) : UpRun :=
  if fl.acsHyperKubeURL = "" then
    match buildHyperKube env.registry env.buildNumber env.hyperKubeScript c with
    | (Except.error e, c1) =>
      ⟨GoResult.err (stageWrap Stage.buildHyperKube e), c1, [Stage.buildHyperKube]⟩
    | (Except.ok _, c1) => upFromWinZip fl env c1 [Stage.buildHyperKube]
  else upFromWinZip fl env c []

/-- The Go function `func (c Cluster) Up() error` returns only the error; the
mutated local copy is discarded. -/
def UpGo (fl : Flags) (env : UpEnv) (c : Cluster) : GoResult Unit := (Up fl env c).result

/-- Go call semantics of `err := caller.Up()`: the receiver is passed BY
VALUE, so the caller's binding is unchanged by the call; the caller observes
the pair (its own unchanged cluster, the returned error). -/
def callUp (fl : Flags) (env : UpEnv) (caller : Cluster) : Cluster × GoResult Unit :=
  (caller, UpGo fl env caller)

/-- The stages one run of `Up` executes when no stage fails: the three
conditional stages are included exactly when their configuration gate enables
them (azure.go:483, 489, 495, 501), the last three stages always run. -/
def enabledStages (fl : Flags) (c : Cluster) : List Stage :=
  (if fl.acsHyperKubeURL = "" then [Stage.buildHyperKube] else []) ++
  (if fl.acsWinBinariesURL = "" then [Stage.buildWinZip] else []) ++
  (if c.apiModelPath = "" then [Stage.generateTemplate] else []) ++
  (if fl.acsEngineURL ≠ "" then [Stage.getAcsEngine] else []) ++
  [Stage.generateARMTemplates, Stage.loadARMTemplates, Stage.createCluster]

/-! ## Trace specification of Up

`TraceSpec rest u tr` characterizes a chunk of `Up` whose enabled remaining
stages are `rest` and that was entered with accumulated trace `tr`: it appends
some initial segment `r` of `rest` to the trace; on success `r` is all of
`rest` (every remaining stage was attempted); on an error return the error is
the stage-identifying wrap of the LAST attempted stage's own error (so no
later stage was attempted and the failure aborted the chunk immediately); on
a panic at least one stage was attempted.  The trace alphabet contains only
forward stage executions — `Up` performs no compensating/rollback actions. -/
def TraceSpec (rest : List Stage) (u : UpRun) (tr : List Stage) : Prop :=
  ∃ r, u.trace = tr ++ r ∧ (∃ t, r ++ t = rest) ∧
    (u.result = GoResult.ok () → r = rest) ∧
    (∀ m, u.result = GoResult.err m → ∃ s e, r.getLast? = some s ∧ m = stageWrap s e) ∧
    (∀ m, u.result = GoResult.crash m → r ≠ [])

theorem traceSpec_fail (rest : List Stage) (s : Stage) (e : String) (c : Cluster)
    (tr : List Stage) :
    TraceSpec (s :: rest) ⟨GoResult.err (stageWrap s e), c, tr ++ [s]⟩ tr := by
  refine ⟨[s], rfl, ⟨rest, rfl⟩, ?_, ?_, ?_⟩
  · intro h; simp at h
  · intro m hm
    have hme : stageWrap s e = m := by simpa using hm
    exact ⟨s, e, rfl, hme.symm⟩
  · intro m hm; simp

theorem traceSpec_crash (rest : List Stage) (s : Stage) (m : String) (c : Cluster)
    (tr : List Stage) :
    TraceSpec (s :: rest) ⟨GoResult.crash m, c, tr ++ [s]⟩ tr := by
  refine ⟨[s], rfl, ⟨rest, rfl⟩, ?_, ?_, ?_⟩
  · intro h; simp at h
  · intro m1 hm; simp at hm
  · intro m1 hm; simp

theorem traceSpec_ok_last (s : Stage) (c : Cluster) (tr : List Stage) :
    TraceSpec [s] ⟨GoResult.ok (), c, tr ++ [s]⟩ tr := by
  refine ⟨[s], rfl, ⟨[], rfl⟩, fun _ => rfl, ?_, ?_⟩
  · intro m hm; simp at hm
  · intro m hm; simp at hm

theorem traceSpec_ok_step (rest : List Stage) (s : Stage) (u : UpRun) (tr : List Stage)
    (h : TraceSpec rest u (tr ++ [s])) : TraceSpec (s :: rest) u tr := by
  obtain ⟨r, htr, ⟨t, hpre⟩, hok, herr, hcrash⟩ := h
  refine ⟨s :: r, by simpa using htr, ⟨t, by rw [List.cons_append, hpre]⟩, ?_, ?_, ?_⟩
  · intro h1; rw [hok h1]
  · intro m hm
    obtain ⟨s1, e1, hl, hw⟩ := herr m hm
    refine ⟨s1, e1, ?_, hw⟩
    have hsr : s :: r = [s] ++ r := rfl
    rw [hsr, List.getLast?_append, hl]
    rfl
  · intro m hm; simp

theorem upFromCreateCluster_spec (env : UpEnv) (c : Cluster) (tr : List Stage) :
    TraceSpec [Stage.createCluster] (upFromCreateCluster env c tr) tr := by
  unfold upFromCreateCluster
  dsimp only
  split
  · exact traceSpec_fail [] Stage.createCluster _ c tr
  · exact traceSpec_crash [] Stage.createCluster _ c tr
  · exact traceSpec_ok_last Stage.createCluster c tr

theorem upFromLoadARM_spec (env : UpEnv) (c : Cluster) (tr : List Stage) :
    TraceSpec [Stage.loadARMTemplates, Stage.createCluster] (upFromLoadARM env c tr) tr := by
  unfold upFromLoadARM
  split
  · exact traceSpec_fail [Stage.createCluster] Stage.loadARMTemplates _ _ tr
  · exact traceSpec_crash [Stage.createCluster] Stage.loadARMTemplates _ _ tr
  · exact traceSpec_ok_step [Stage.createCluster] Stage.loadARMTemplates _ tr
      (upFromCreateCluster_spec env _ (tr ++ [Stage.loadARMTemplates]))

theorem upFromGenARM_spec (env : UpEnv) (c : Cluster) (tr : List Stage) :
    TraceSpec [Stage.generateARMTemplates, Stage.loadARMTemplates, Stage.createCluster]
      (upFromGenARM env c tr) tr := by
  unfold upFromGenARM
  split
  · exact traceSpec_fail [Stage.loadARMTemplates, Stage.createCluster]
      Stage.generateARMTemplates _ c tr
  · exact traceSpec_ok_step [Stage.loadARMTemplates, Stage.createCluster]
      Stage.generateARMTemplates _ tr
      (upFromLoadARM_spec env c (tr ++ [Stage.generateARMTemplates]))

theorem upFromGetAcsEngine_spec (fl : Flags) (env : UpEnv) (c : Cluster) (tr : List Stage) :
    TraceSpec ((if fl.acsEngineURL ≠ "" then [Stage.getAcsEngine] else []) ++
      [Stage.generateARMTemplates, Stage.loadARMTemplates, Stage.createCluster])
      (upFromGetAcsEngine fl env c tr) tr := by
  by_cases hurl : fl.acsEngineURL ≠ ""
  · rw [if_pos hurl]
    unfold upFromGetAcsEngine
    rw [if_pos hurl]
    dsimp only
    split
    · exact traceSpec_fail _ Stage.getAcsEngine _ _ tr
    · exact traceSpec_ok_step _ Stage.getAcsEngine _ tr
        (upFromGenARM_spec env _ (tr ++ [Stage.getAcsEngine]))
  · rw [if_neg hurl]
    unfold upFromGetAcsEngine
    rw [if_neg hurl]
    simpa using upFromGenARM_spec env c tr

/-- `buildHyperKube` writes only `acsCustomHyperKubeURL`; in particular the
`apiModelPath` gate that `Up` checks later is unaffected. -/
theorem buildHyperKube_apiModelPath (registry buildNumber : String)
    (script : Except String Unit) (c : Cluster) :
    (buildHyperKube registry buildNumber script c).2.apiModelPath = c.apiModelPath := by
  unfold buildHyperKube
  split <;> rfl

/-- `buildWinZip` writes only `acsCustomWinBinariesURL`; in particular the
`apiModelPath` gate that `Up` checks later is unaffected. -/
theorem buildWinZip_apiModelPath (winZipBuildScript home buildNumber : String)
    (zipCreate : Except String Unit) (zipHr : Nat → Except String Unit)
    (scriptRun : Except String Unit) (openFile : Except String Unit)
    (upload : Except String String) (c : Cluster) :
    (buildWinZip winZipBuildScript home buildNumber zipCreate zipHr scriptRun
      openFile upload c).2.apiModelPath = c.apiModelPath := by
  unfold buildWinZip uploadZip
  split
  · rfl
  · split
    · rfl
    · split
      · rfl
      · split <;> rfl


theorem upFromGenTemplate_spec (fl : Flags) (env : UpEnv) (c : Cluster) (tr : List Stage) :
    TraceSpec ((if c.apiModelPath = "" then [Stage.generateTemplate] else []) ++
      (if fl.acsEngineURL ≠ "" then [Stage.getAcsEngine] else []) ++
      [Stage.generateARMTemplates, Stage.loadARMTemplates, Stage.createCluster])
      (upFromGenTemplate fl env c tr) tr := by
  by_cases hpath : c.apiModelPath = ""
  · rw [if_pos hpath]
    unfold upFromGenTemplate
    rw [if_pos hpath]
    dsimp only
    cases hres : (generateTemplate fl env.now env.marshal env.writeSpec c).result with
    | error e =>
      simp only [List.singleton_append]
      exact traceSpec_fail _ Stage.generateTemplate e _ tr
    | ok a =>
      simp only [List.singleton_append]
      exact traceSpec_ok_step _ Stage.generateTemplate _ tr
        (upFromGetAcsEngine_spec fl env _ (tr ++ [Stage.generateTemplate]))
  · rw [if_neg hpath]
    unfold upFromGenTemplate
    rw [if_neg hpath]
    simpa using upFromGetAcsEngine_spec fl env c tr

theorem upFromWinZip_spec (fl : Flags) (env : UpEnv) (c : Cluster) (tr : List Stage) :
    TraceSpec ((if fl.acsWinBinariesURL = "" then [Stage.buildWinZip] else []) ++
      (if c.apiModelPath = "" then [Stage.generateTemplate] else []) ++
      (if fl.acsEngineURL ≠ "" then [Stage.getAcsEngine] else []) ++
      [Stage.generateARMTemplates, Stage.loadARMTemplates, Stage.createCluster])
      (upFromWinZip fl env c tr) tr := by
  by_cases hwin : fl.acsWinBinariesURL = ""
  · rw [if_pos hwin]
    unfold upFromWinZip
    rw [if_pos hwin]
    rcases hbz : buildWinZip fl.acsWinZipBuildScript env.home env.buildNumber env.zipCreate
      env.zipHttpRead env.zipScriptRun env.zipOpen env.zipUpload c with ⟨res, c1⟩
    cases res with
    | error e =>
      simp only [List.singleton_append]
      exact traceSpec_fail _ Stage.buildWinZip e c1 tr
    | ok u =>
      have hframe : c1.apiModelPath = c.apiModelPath := by
        have hb := buildWinZip_apiModelPath fl.acsWinZipBuildScript env.home env.buildNumber
          env.zipCreate env.zipHttpRead env.zipScriptRun env.zipOpen env.zipUpload c
        rw [hbz] at hb
        exact hb
      have hs := upFromGenTemplate_spec fl env c1 (tr ++ [Stage.buildWinZip])
      rw [hframe] at hs
      simp only [List.singleton_append]
      exact traceSpec_ok_step _ Stage.buildWinZip _ tr hs
  · rw [if_neg hwin]
    unfold upFromWinZip
    rw [if_neg hwin]
    simpa using upFromGenTemplate_spec fl env c tr

/-- Central trace lemma: one run of `Up` attempts an initial segment of
`enabledStages fl c`, all of it on success, and on an error return the error
is the stage wrap of the last attempted stage. -/
theorem up_traceSpec (fl : Flags) (env : UpEnv) (c : Cluster) :
    TraceSpec (enabledStages fl c) (Up fl env c) [] := by
  unfold enabledStages
  by_cases hhk : fl.acsHyperKubeURL = ""
  · rw [if_pos hhk]
    unfold Up
    rw [if_pos hhk]
    rcases hbh : buildHyperKube env.registry env.buildNumber env.hyperKubeScript c with ⟨res, c1⟩
    cases res with
    | error e =>
      simp only [List.singleton_append]
      exact traceSpec_fail _ Stage.buildHyperKube e c1 []
    | ok u =>
      have hframe : c1.apiModelPath = c.apiModelPath := by
        have hb := buildHyperKube_apiModelPath env.registry env.buildNumber env.hyperKubeScript c
        rw [hbh] at hb
        exact hb
      have hs := upFromWinZip_spec fl env c1 [Stage.buildHyperKube]
      rw [hframe] at hs
      simp only [List.singleton_append]
      exact traceSpec_ok_step _ Stage.buildHyperKube _ [] hs
  · rw [if_neg hhk]
    unfold Up
    rw [if_neg hhk]
    simpa using upFromWinZip_spec fl env c []

/-- When the hyperkube flag is non-empty, the `buildHyperKube` stage is not
among the enabled stages of `Up`. -/
theorem buildHyperKube_not_enabled (fl : Flags) (c : Cluster) (h : fl.acsHyperKubeURL ≠ "") :
    Stage.buildHyperKube ∉ enabledStages fl c := by
  unfold enabledStages
  rw [if_neg h]
  by_cases h1 : fl.acsWinBinariesURL = "" <;> by_cases h2 : c.apiModelPath = "" <;>
    by_cases h3 : fl.acsEngineURL ≠ "" <;> simp [h1, h2, h3]

/-! ## Sample concrete values used by the witnesses -/

/-- Sample flag record: all required inputs present, all optional artifact
URLs empty (so every conditional stage of `Up` is enabled except the
generator-tool download). -/
def flSample : Flags :=
  { acsResourceName := "kubetest-1", acsResourceGroupName := "kubetest-1-rg",
    acsLocation := "westus2", acsMasterVmSize := "Standard_D2s_v3",
    acsAgentVmSize := "Standard_D2s_v3", acsAdminUsername := "azureuser",
    acsAdminPassword := "P@ssw0rd1", acsAgentPoolCount := 2, acsAgentOSType := "Windows",
    acsTemplatePath := "", acsDnsPrefix := "kubetest-1", acsEngineURL := "",
    acsEngineMD5 := "", acsSSHPublicKeyPath := "/home/user/.ssh/id_rsa.pub",
    acsWinBinariesURL := "", acsHyperKubeURL := "",
    acsCredentialsFile := "/home/user/creds.toml", acsOrchestratorRelease := "1.11",
    acsWinZipBuildScript := "https://example.com/build-windows-k8s.sh",
    acsNetworkPlugin := "azure" }

/-- Sample cluster as produced by the constructor (empty artifact URLs, empty
api model path). -/
def cSample : Cluster :=
  { credentials := zeroCreds, location := "westus2", resourceGroup := "kubetest-1-rg",
    name := "kubetest-1", apiModelPath := "", dnsPrefix := "kubetest-1",
    templateJSON := none, parametersJSON := none, outputDir := "/tmp/acs123",
    sshPublicKey := "ssh-rsa AAAA", adminUsername := "", adminPassword := "",
    masterVMSize := "", agentVMSize := "", acsCustomHyperKubeURL := "",
    acsCustomWinBinariesURL := "", acsEngineBinaryPath := "acs-engine",
    hasAzureClient := true }

/-- Sample environment in which every external effect succeeds. -/
def envSample : UpEnv :=
  { home := "/home/user", registry := "reg.io", buildNumber := "42",
    hyperKubeScript := Except.ok (), zipCreate := Except.ok (),
    zipHttpRead := fun _ => Except.ok (), zipScriptRun := Except.ok (),
    zipOpen := Except.ok (), zipUpload := Except.ok "https://blob.example/42.zip",
    now := "2018-06-01 12:00:00", marshal := fun _ => Except.ok "serialized-spec",
    writeSpec := fun _ => Except.ok (), engineCreate := Except.ok (),
    engineHttpRead := fun _ => Except.ok (),
    md5Output := Except.ok "abc /home/user/acs-engine.tar.gz",
    getwd := Except.ok "/workdir", tarRun := Except.ok (), armGen := Except.ok (),
    templateRead := Except.ok "template-doc", parametersRead := Except.ok "parameters-doc",
    parseObj := fun _ => Except.ok [("parameters", Json.obj [])],
    kubecfgDir := ["kubeconfig.westus2.json"], ensureRG := Except.ok (),
    validateDeployment := Except.ok (), deployTemplate := Except.ok () }

/-! ## Claim theorems -/

/-- C4: for every run of `Up`, the attempted stages form an initial segment of
the enabled stages (so a failing stage is never followed by a later stage and
stages are never re-attempted or rolled back — the trace alphabet has no
compensating actions); a successful run attempts every enabled stage; and an
error return is the stage-identifying wrap of the LAST attempted stage's own
error, i.e. `Up` returned immediately when that stage failed. -/
theorem up_stage_failure_aborts (fl : Flags) (env : UpEnv) (c : Cluster) :
    (∃ t, (Up fl env c).trace ++ t = enabledStages fl c) ∧
    ((Up fl env c).result = GoResult.ok () → (Up fl env c).trace = enabledStages fl c) ∧
    (∀ m, (Up fl env c).result = GoResult.err m →
      ∃ s e, (Up fl env c).trace.getLast? = some s ∧ m = stageWrap s e) := by
  obtain ⟨r, htr, ⟨t, hpre⟩, hok, herr, hcrash⟩ := up_traceSpec fl env c
  have hr : (Up fl env c).trace = r := by simpa using htr
  rw [hr]
  exact ⟨⟨t, hpre⟩, hok, herr⟩

/-- Environment whose ARM template generation step fails. -/
def envArmFail : UpEnv := { envSample with armGen := Except.error "boom" }

/-- Witness for C4: in a concrete run where the `generateARMTemplates` stage
fails, `Up` returns exactly that stage's wrapped error, the failing stage is
the last attempted one, and the trace is an initial segment of the enabled
stages. -/
theorem up_stage_failure_aborts_witness :
    (Up flSample envArmFail cSample).result =
      GoResult.err "Failed to generate ARM templates: Failed to generate ARM templates: boom." ∧
    (∃ s e, (Up flSample envArmFail cSample).trace.getLast? = some s ∧
      "Failed to generate ARM templates: Failed to generate ARM templates: boom." =
        stageWrap s e) ∧
    (∃ t, (Up flSample envArmFail cSample).trace ++ t = enabledStages flSample cSample) := by
  have h := up_stage_failure_aborts flSample envArmFail cSample
  exact ⟨by decide, h.2.2 _ (by decide), h.1⟩

/-- C1: when the `acsengine-hyperkube-url` flag is non-empty, the generated
api model's orchestrator profile carries exactly the flag's value as the
custom hyperkube image, regardless of the `acsCustomHyperKubeURL` the
Artifact Builder may have recorded on the Cluster, and `Up` never attempts
the `buildHyperKube` stage in that run. -/
theorem hyperkube_flag_overrides_and_skips_build (fl : Flags) (env : UpEnv) (c : Cluster)
    (now : String) (h : fl.acsHyperKubeURL ≠ "") :
    (generateTemplateSpec fl now
        c).properties.orchestratorProfile.kubernetesConfig.customHyperkubeImage =
      fl.acsHyperKubeURL ∧
    Stage.buildHyperKube ∉ (Up fl env c).trace := by
  constructor
  · unfold generateTemplateSpec
    dsimp only
    rw [if_pos h]
    split
    · rfl
    · split
      · rfl
      · rfl
  · intro hmem
    obtain ⟨r, htr, ⟨t, hpre⟩, -, -, -⟩ := up_traceSpec fl env c
    have hr : (Up fl env c).trace = r := by simpa using htr
    rw [hr] at hmem
    have hin : Stage.buildHyperKube ∈ enabledStages fl c := by
      rw [← hpre]
      exact List.mem_append_left t hmem
    exact buildHyperKube_not_enabled fl c h hin

/-- Flag record with the hyperkube override of the spec's test scenario. -/
def flHyperkube : Flags := { flSample with acsHyperKubeURL := "registry/img:v9" }

/-- Cluster on which the Artifact Builder has recorded a competing value. -/
def cBuilderValue : Cluster := { cSample with acsCustomHyperKubeURL := "builder/img:v1" }

/-- Witness for C1: with the override set to `registry/img:v9` and a competing
Artifact Builder value on the Cluster, the serialized spec carries the
override verbatim and the build stage is not attempted. -/
theorem hyperkube_flag_overrides_witness :
    flHyperkube.acsHyperKubeURL ≠ "" ∧
    ((generateTemplateSpec flHyperkube "2018-06-01 12:00:00"
        cBuilderValue).properties.orchestratorProfile.kubernetesConfig.customHyperkubeImage =
      flHyperkube.acsHyperKubeURL ∧
    Stage.buildHyperKube ∉ (Up flHyperkube envSample cBuilderValue).trace) :=
  ⟨by decide,
    hyperkube_flag_overrides_and_skips_build flHyperkube envSample cBuilderValue
      "2018-06-01 12:00:00" (by decide)⟩

/-- C2: for every retry count `n ≥ 1`, a run of `getAcsEngine` (and likewise
of `getZipBuildScript`) whose download attempts all fail performs exactly `n`
attempts, sleeps `i` seconds after the failed attempt with zero-based index
`i` for each non-final attempt (the sleep list is `[0, 1, ..., n-2]`), and
returns the error of the final attempt (in the loop's wrap). -/
theorem fetch_retry_exhaustion (hr : Nat → Except String Unit) (errs : Nat → String)
    (url zipUrl md5flag home : String) (md5Out : Except String String)
    (getwd : Except String String) (tarRun : Except String Unit) (c : Cluster)
    (n : Nat) (hn : 1 ≤ n) (hfail : ∀ i, hr i = Except.error (errs i)) :
    (getAcsEngine url md5flag home (Except.ok ()) hr md5Out getwd tarRun n c).loop =
      some ⟨n, List.range (n - 1),
        Except.error (wrapFetchErr url (home ++ "/acs-engine.tar.gz") (errs (n - 1)))⟩ ∧
    (getAcsEngine url md5flag home (Except.ok ()) hr md5Out getwd tarRun n c).result =
      Except.error (wrapFetchErr url (home ++ "/acs-engine.tar.gz") (errs (n - 1))) ∧
    (getZipBuildScript zipUrl home (Except.ok ()) hr n).loop =
      some ⟨n, List.range (n - 1),
        Except.error (wrapFetchErr zipUrl (home ++ "/build-win-zip.sh") (errs (n - 1)))⟩ ∧
    (getZipBuildScript zipUrl home (Except.ok ()) hr n).result =
      Except.error (wrapFetchErr zipUrl (home ++ "/build-win-zip.sh") (errs (n - 1))) := by
  have hA := fetchLoop_allFail hr errs url (home ++ "/acs-engine.tar.gz") n hn hfail
  have hZ := fetchLoop_allFail hr errs zipUrl (home ++ "/build-win-zip.sh") n hn hfail
  unfold getAcsEngine getZipBuildScript
  dsimp only
  rw [hA, hZ]
  exact ⟨rfl, rfl, rfl, rfl⟩

/-- Witness for C2: three attempts that all fail with `"connection refused"`
give exactly 3 attempts, sleeps of 0 and 1 seconds, and the final wrapped
error, in both fetchers. -/
theorem fetch_retry_exhaustion_witness :
    1 ≤ 3 ∧
    ((getAcsEngine "http://u" "" "/h" (Except.ok ()) (fun _ => Except.error "connection refused")
        (Except.ok "x") (Except.ok "/w") (Except.ok ()) 3 cSample).loop =
      some ⟨3, List.range (3 - 1),
        Except.error (wrapFetchErr "http://u" ("/h" ++ "/acs-engine.tar.gz")
          ((fun _ => "connection refused") (3 - 1)))⟩ ∧
    (getAcsEngine "http://u" "" "/h" (Except.ok ()) (fun _ => Except.error "connection refused")
        (Except.ok "x") (Except.ok "/w") (Except.ok ()) 3 cSample).result =
      Except.error (wrapFetchErr "http://u" ("/h" ++ "/acs-engine.tar.gz")
        ((fun _ => "connection refused") (3 - 1))) ∧
    (getZipBuildScript "http://z" "/h" (Except.ok ())
        (fun _ => Except.error "connection refused") 3).loop =
      some ⟨3, List.range (3 - 1),
        Except.error (wrapFetchErr "http://z" ("/h" ++ "/build-win-zip.sh")
          ((fun _ => "connection refused") (3 - 1)))⟩ ∧
    (getZipBuildScript "http://z" "/h" (Except.ok ())
        (fun _ => Except.error "connection refused") 3).result =
      Except.error (wrapFetchErr "http://z" ("/h" ++ "/build-win-zip.sh")
        ((fun _ => "connection refused") (3 - 1)))) :=
  ⟨by norm_num,
    fetch_retry_exhaustion (fun _ => Except.error "connection refused")
      (fun _ => "connection refused") "http://u" "http://z" "" "/h" (Except.ok "x")
      (Except.ok "/w") (Except.ok ()) cSample 3 (by norm_num) (fun _ => rfl)⟩

/-- C5: the checksum gate of `getAcsEngine`.  When no checksum is configured
the comparison is skipped entirely (whatever else happens).  When the
download has succeeded and a checksum is configured, the comparison runs; if
the md5 output's first field differs from the configured value, the function
returns the explicit mismatch error, the archive is never extracted, and the
receiver (in particular `acsEngineBinaryPath`) is unchanged. -/
theorem md5_gate (url md5flag home : String) (createFile : Except String Unit)
    (hr : Nat → Except String Unit) (md5Out : Except String String)
    (getwd : Except String String) (tarRun : Except String Unit) (retry : Nat) (c : Cluster) :
    (md5flag = "" →
      (getAcsEngine url md5flag home createFile hr md5Out getwd tarRun retry c).md5Checked
        = false) ∧
    ((fetchLoop hr url (home ++ "/acs-engine.tar.gz") retry).result = Except.ok () →
      (md5flag ≠ "" →
        (getAcsEngine url md5flag home (Except.ok ()) hr md5Out getwd tarRun retry c).md5Checked
          = true) ∧
      (∀ o, md5flag ≠ "" → md5Out = Except.ok o → firstSpaceField o ≠ md5flag →
        (getAcsEngine url md5flag home (Except.ok ()) hr md5Out getwd tarRun retry c).result =
          Except.error "Wrong md5 sum for acs-engine." ∧
        (getAcsEngine url md5flag home (Except.ok ()) hr md5Out getwd tarRun retry c).tarRan
          = false ∧
        (getAcsEngine url md5flag home (Except.ok ()) hr md5Out getwd tarRun retry c).cluster
          = c)) := by
  constructor
  · intro hflag
    subst hflag
    unfold getAcsEngine getAcsEngineTail
    dsimp only
    cases createFile with
    | error e => rfl
    | ok u =>
      cases hres : (fetchLoop hr url (home ++ "/acs-engine.tar.gz") retry).result with
      | error e => rfl
      | ok v =>
        rw [if_neg (by simp)]
        cases getwd with
        | error e => rfl
        | ok cwd => cases tarRun <;> rfl
  · intro hloop
    constructor
    · intro hflag
      unfold getAcsEngine getAcsEngineTail
      dsimp only
      rw [hloop]
      dsimp only
      rw [if_pos hflag]
      cases md5Out with
      | error e => rfl
      | ok o =>
        dsimp only
        by_cases hmm : firstSpaceField o ≠ md5flag
        · rw [if_pos hmm]
        · rw [if_neg hmm]
          cases getwd with
          | error e => rfl
          | ok cwd => cases tarRun <;> rfl
    · intro o hflag hout hmm
      unfold getAcsEngine
      dsimp only
      rw [hloop]
      dsimp only
      rw [if_pos hflag, hout]
      dsimp only
      rw [if_pos hmm]
      exact ⟨rfl, rfl, rfl⟩

/-- Witness for C5: with configured checksum `cafe` and md5 output starting
with `deadbeef`, the mismatch error is returned, no extraction happens, and
the cluster is untouched. -/
theorem md5_gate_witness :
    ((fetchLoop (fun _ => Except.ok ()) "http://u" ("/h" ++ "/acs-engine.tar.gz") 1).result =
      Except.ok ()) ∧
    (getAcsEngine "http://u" "cafe" "/h" (Except.ok ()) (fun _ => Except.ok ())
        (Except.ok "deadbeef /h/acs-engine.tar.gz") (Except.ok "/w") (Except.ok ()) 1
        cSample).result = Except.error "Wrong md5 sum for acs-engine." ∧
    (getAcsEngine "http://u" "cafe" "/h" (Except.ok ()) (fun _ => Except.ok ())
        (Except.ok "deadbeef /h/acs-engine.tar.gz") (Except.ok "/w") (Except.ok ()) 1
        cSample).tarRan = false ∧
    (getAcsEngine "http://u" "cafe" "/h" (Except.ok ()) (fun _ => Except.ok ())
        (Except.ok "deadbeef /h/acs-engine.tar.gz") (Except.ok "/w") (Except.ok ()) 1
        cSample).cluster = cSample := by
  have h := md5_gate "http://u" "cafe" "/h" (Except.ok ()) (fun _ => Except.ok ())
    (Except.ok "deadbeef /h/acs-engine.tar.gz") (Except.ok "/w") (Except.ok ()) 1 cSample
  have h2 := (h.2 rfl).2 "deadbeef /h/acs-engine.tar.gz" (by decide) rfl (by decide)
  exact ⟨rfl, h2.1, h2.2.1, h2.2.2⟩

/-- A validation-failure error never equals a submission-failure error: the
two wrap strings differ in their first character. -/
theorem validationFailureMsg_ne_deployFailureMsg (e1 e2 : String) :
    validationFailureMsg e1 ≠ deployFailureMsg e2 := by
  intro h
  have hd : ("Template invalid: " ++ e1).data = ("Cannot deploy: " ++ e2).data := by
    simpa [validationFailureMsg, deployFailureMsg] using congrArg String.data h
  rw [String.data_append, String.data_append] at hd
  have hh := congrArg List.head? hd
  rw [List.head?_append, List.head?_append] at hh
  have h1 : "Template invalid: ".data.head? = some 'T' := by decide
  have h2 : "Cannot deploy: ".data.head? = some 'C' := by decide
  rw [h1, h2] at hh
  simp [Option.or] at hh

/-- C3: in `createCluster`, the deployment is submitted only after validation
succeeded: whenever the `DeployTemplate` call appears in the action list,
validation returned success and the action list is exactly the full sequence
with validation strictly before submission.  When validation fails, the
submission is never invoked and (when validation was actually reached) the
returned error is the validation-failure wrap, which differs from every
submission-failure wrap. -/
theorem validate_before_deploy (kubecfgDir : List String)
    (ensureRG validate deploy : Except String Unit) (c : Cluster) :
    (∀ e, validate = Except.error e →
      CCAction.deployTemplate ∉ (createCluster kubecfgDir ensureRG validate deploy c).actions ∧
      (CCAction.validateDeployment ∈ (createCluster kubecfgDir ensureRG validate deploy c).actions →
        (createCluster kubecfgDir ensureRG validate deploy c).result =
          GoResult.err (validationFailureMsg e))) ∧
    (CCAction.deployTemplate ∈ (createCluster kubecfgDir ensureRG validate deploy c).actions →
      validate = Except.ok () ∧
      ∃ k, (createCluster kubecfgDir ensureRG validate deploy c).actions =
        [CCAction.setEnvKubeconfig k, CCAction.ensureResourceGroup,
          CCAction.validateDeployment, CCAction.deployTemplate]) ∧
    (∀ e1 e2, validationFailureMsg e1 ≠ deployFailureMsg e2) := by
  refine ⟨?_, ?_, validationFailureMsg_ne_deployFailureMsg⟩
  · intro e hv
    subst hv
    cases kubecfgDir with
    | nil => exact ⟨by simp [createCluster], by simp [createCluster]⟩
    | cons first rest =>
      cases ensureRG with
      | error e1 =>
        constructor
        · simp [createCluster]
        · intro hmem
          simp [createCluster] at hmem
      | ok u =>
        exact ⟨by simp [createCluster], fun _ => by simp [createCluster]⟩
  · intro hmem
    cases kubecfgDir with
    | nil => simp [createCluster] at hmem
    | cons first rest =>
      cases ensureRG with
      | error e1 => simp [createCluster] at hmem
      | ok u =>
        cases validate with
        | error e2 => simp [createCluster] at hmem
        | ok v =>
          refine ⟨rfl, c.outputDir ++ "/kubeconfig/" ++ first, ?_⟩
          cases deploy <;> simp [createCluster]

/-- Witness for C3: a concrete run with failing validation returns the
validation-failure error and never submits the deployment. -/
theorem validate_before_deploy_witness :
    CCAction.deployTemplate ∉
      (createCluster ["kubeconfig.westus2.json"] (Except.ok ()) (Except.error "bad template")
        (Except.ok ()) cSample).actions ∧
    (createCluster ["kubeconfig.westus2.json"] (Except.ok ()) (Except.error "bad template")
        (Except.ok ()) cSample).result = GoResult.err (validationFailureMsg "bad template") ∧
    validationFailureMsg "bad template" ≠ deployFailureMsg "bad template" := by
  have h := validate_before_deploy ["kubeconfig.westus2.json"] (Except.ok ())
    (Except.error "bad template") (Except.ok ()) cSample
  have h1 := h.1 "bad template" rfl
  exact ⟨h1.1, h1.2 (by decide), h.2.2 "bad template" "bad template"⟩

/-- C10: `createCluster` discards the `ReadDir` error and indexes the first
directory entry unguarded.  With a non-empty listing the first action is
exporting KUBECONFIG to that first entry's path, before any cloud-client
call; with an empty listing (also the `ReadDir`-error case, which yields a
nil slice) the index access panics before anything else happens. -/
theorem kubeconfig_first_entry (kubecfgDir : List String)
    (ensureRG validate deploy : Except String Unit) (c : Cluster) :
    (kubecfgDir = [] →
      (createCluster kubecfgDir ensureRG validate deploy c).result =
        GoResult.crash "runtime error: index out of range" ∧
      (createCluster kubecfgDir ensureRG validate deploy c).actions = []) ∧
    (∀ first rest, kubecfgDir = first :: rest →
      ∃ tail, (createCluster kubecfgDir ensureRG validate deploy c).actions =
        CCAction.setEnvKubeconfig (c.outputDir ++ "/kubeconfig/" ++ first) :: tail ∧
        ∀ a ∈ tail, a = CCAction.ensureResourceGroup ∨ a = CCAction.validateDeployment ∨
          a = CCAction.deployTemplate) := by
  constructor
  · intro hnil
    subst hnil
    exact ⟨rfl, rfl⟩
  · intro first rest hcons
    subst hcons
    cases ensureRG with
    | error e1 =>
      refine ⟨[CCAction.ensureResourceGroup], by simp [createCluster], ?_⟩
      intro a ha
      simp at ha
      exact Or.inl ha
    | ok u =>
      cases validate with
      | error e2 =>
        refine ⟨[CCAction.ensureResourceGroup, CCAction.validateDeployment],
          by simp [createCluster], ?_⟩
        intro a ha
        simp at ha
        rcases ha with h1 | h2
        · exact Or.inl h1
        · exact Or.inr (Or.inl h2)
      | ok v =>
        refine ⟨[CCAction.ensureResourceGroup, CCAction.validateDeployment,
          CCAction.deployTemplate], ?_, ?_⟩
        · cases deploy <;> simp [createCluster]
        · intro a ha
          simp at ha
          rcases ha with h1 | h2 | h3
          · exact Or.inl h1
          · exact Or.inr (Or.inl h2)
          · exact Or.inr (Or.inr h3)

/-- Witness for C10: the empty listing panics; the non-empty listing exports
KUBECONFIG to the first entry before the cloud calls. -/
theorem kubeconfig_first_entry_witness :
    ((createCluster [] (Except.ok ()) (Except.ok ()) (Except.ok ()) cSample).result =
      GoResult.crash "runtime error: index out of range" ∧
    (createCluster [] (Except.ok ()) (Except.ok ()) (Except.ok ()) cSample).actions = []) ∧
    (∃ tail, (createCluster ["kubeconfig.westus2.json"] (Except.ok ()) (Except.ok ())
        (Except.ok ()) cSample).actions =
      CCAction.setEnvKubeconfig (cSample.outputDir ++ "/kubeconfig/" ++ "kubeconfig.westus2.json")
        :: tail ∧
      ∀ a ∈ tail, a = CCAction.ensureResourceGroup ∨ a = CCAction.validateDeployment ∨
        a = CCAction.deployTemplate) := by
  constructor
  · exact (kubeconfig_first_entry [] (Except.ok ()) (Except.ok ()) (Except.ok ()) cSample).1 rfl
  · exact (kubeconfig_first_entry ["kubeconfig.westus2.json"] (Except.ok ()) (Except.ok ())
      (Except.ok ()) cSample).2 "kubeconfig.westus2.json" [] rfl

/-- Counterexample to C7 as stated: a run in which JSON serialization fails
but the file write succeeds makes `generateTemplate` return success — the
marshal error is discarded at azure.go:265 (`apiModel, _ := ...`), so a
serialization failure does NOT produce an error return. -/
theorem generateTemplate_marshal_error_returns_ok :
    (generateTemplate flSample "2018-06-01 12:00:00"
      (fun _ => Except.error "json: unsupported type")
      (fun _ => Except.ok ()) cSample).result = Except.ok () := by
  rfl

/-- Amended C7: `generateTemplate` returns an error exactly when the file
write fails (with the `Cannot write to file:` wrap); a serialization failure
alone is discarded — the write then receives the nil content — and does not
cause an error return.  In either case there are no retries: the outcome is
a single write call's outcome. -/
theorem generateTemplate_error_iff_write_fails (fl : Flags) (now : String)
    (marshal : AcsEngineApiModel → Except String String) (c : Cluster) :
    (∀ write : String → Except String Unit, (∀ s, write s = Except.ok ()) →
      (generateTemplate fl now marshal write c).result = Except.ok ()) ∧
    (∀ (write : String → Except String Unit) (e : String), (∀ s, write s = Except.error e) →
      (generateTemplate fl now marshal write c).result =
        Except.error ("Cannot write to file: " ++ e)) := by
  constructor
  · intro write hw
    unfold generateTemplate
    dsimp only
    rw [hw]
  · intro write e hw
    unfold generateTemplate
    dsimp only
    rw [hw]

/-- Witness for the amended C7 at concrete inputs: success when the write
works, the wrapped error when it fails, independently of a failing marshal. -/
theorem generateTemplate_error_iff_write_fails_witness :
    (generateTemplate flSample "2018-06-01 12:00:00"
      (fun _ => Except.error "json: unsupported type") (fun _ => Except.ok ()) cSample).result =
      Except.ok () ∧
    (generateTemplate flSample "2018-06-01 12:00:00"
      (fun _ => Except.error "json: unsupported type")
      (fun _ => Except.error "disk full") cSample).result =
      Except.error ("Cannot write to file: " ++ "disk full") := by
  have h := generateTemplate_error_iff_write_fails flSample "2018-06-01 12:00:00"
    (fun _ => Except.error "json: unsupported type") cSample
  exact ⟨h.1 (fun _ => Except.ok ()) (fun _ => rfl),
    h.2 (fun _ => Except.error "disk full") "disk full" (fun _ => rfl)⟩

/-- Counterexample to C8 as stated: a parameters file that reads fine and
parses as a JSON object WITHOUT a top-level `parameters` member makes
`loadARMTemplates` panic (the unchecked type assertion at azure.go:347 on the
nil interface), not return an error — the unwrap is not total. -/
theorem loadARMTemplates_missing_parameters_crashes :
    (loadARMTemplates (Except.ok "template-doc") (Except.ok "parameters-doc")
      (fun _ => Except.ok []) cSample).1 =
      GoResult.crash "interface conversion: interface is nil" := by
  rfl

/-- Amended C8: read and parse failures are reported as error returns, but
when the parsed parameters document lacks a top-level `parameters` object
(absent key or non-object value) the one-level unwrap panics instead of
returning an error; when the `parameters` object is present the unwrap
succeeds and replaces the in-memory parameters document. -/
theorem loadARMTemplates_unwrap_behaviour (templateRead parametersRead : Except String String)
    (parseObj : String → Except String (List (String × Json))) (c : Cluster) :
    (∀ e, templateRead = Except.error e →
      (loadARMTemplates templateRead parametersRead parseObj c).1 =
        GoResult.err ("Error reading ARM template file: " ++ e ++ ".")) ∧
    (∀ tb tj pb pj, templateRead = Except.ok tb → parseObj tb = Except.ok tj →
      parametersRead = Except.ok pb → parseObj pb = Except.ok pj →
      ((∀ kvs, lookupKey pj "parameters" ≠ some (Json.obj kvs)) →
        ∃ m, (loadARMTemplates templateRead parametersRead parseObj c).1 = GoResult.crash m) ∧
      (∀ kvs, lookupKey pj "parameters" = some (Json.obj kvs) →
        (loadARMTemplates templateRead parametersRead parseObj c).1 = GoResult.ok () ∧
        (loadARMTemplates templateRead parametersRead parseObj c).2.parametersJSON = some kvs)) := by
  constructor
  · intro e he
    subst he
    rfl
  · intro tb tj pb pj htb htj hpb hpj
    subst htb
    subst hpb
    constructor
    · intro hmiss
      unfold loadARMTemplates
      dsimp only
      rw [htj]
      dsimp only
      rw [hpj]
      dsimp only
      cases hlk : lookupKey pj "parameters" with
      | none => exact ⟨"interface conversion: interface is nil", rfl⟩
      | some j =>
        cases j with
        | obj kvs => exact absurd hlk (hmiss kvs)
        | null => exact ⟨"interface conversion: value is not an object", rfl⟩
        | bool b => exact ⟨"interface conversion: value is not an object", rfl⟩
        | num n => exact ⟨"interface conversion: value is not an object", rfl⟩
        | str s => exact ⟨"interface conversion: value is not an object", rfl⟩
        | arr xs => exact ⟨"interface conversion: value is not an object", rfl⟩
    · intro kvs hlk
      unfold loadARMTemplates
      dsimp only
      rw [htj]
      dsimp only
      rw [hpj]
      dsimp only
      rw [hlk]
      exact ⟨rfl, rfl⟩

/-- Witness for the amended C8: a read error gives an error return; a parsed
document without `parameters` panics; one with `parameters` succeeds. -/
theorem loadARMTemplates_unwrap_behaviour_witness :
    (loadARMTemplates (Except.error "no such file") (Except.ok "parameters-doc")
      (fun _ => Except.ok []) cSample).1 =
      GoResult.err ("Error reading ARM template file: " ++ "no such file" ++ ".") ∧
    (∃ m, (loadARMTemplates (Except.ok "template-doc") (Except.ok "parameters-doc")
      (fun _ => Except.ok []) cSample).1 = GoResult.crash m) ∧
    ((loadARMTemplates (Except.ok "template-doc") (Except.ok "parameters-doc")
      (fun _ => Except.ok [("parameters", Json.obj [("k", Json.str "v")])]) cSample).1 =
      GoResult.ok () ∧
    (loadARMTemplates (Except.ok "template-doc") (Except.ok "parameters-doc")
      (fun _ => Except.ok [("parameters", Json.obj [("k", Json.str "v")])]) cSample).2.parametersJSON
      = some [("k", Json.str "v")]) := by
  refine ⟨?_, ?_, ?_⟩
  · exact (loadARMTemplates_unwrap_behaviour (Except.error "no such file")
      (Except.ok "parameters-doc") (fun _ => Except.ok []) cSample).1 "no such file" rfl
  · exact ((loadARMTemplates_unwrap_behaviour (Except.ok "template-doc")
      (Except.ok "parameters-doc") (fun _ => Except.ok []) cSample).2 "template-doc" []
      "parameters-doc" [] rfl rfl rfl rfl).1 (fun kvs => by simp [lookupKey])
  · exact ((loadARMTemplates_unwrap_behaviour (Except.ok "template-doc")
      (Except.ok "parameters-doc")
      (fun _ => Except.ok [("parameters", Json.obj [("k", Json.str "v")])]) cSample).2
      "template-doc" [("parameters", Json.obj [("k", Json.str "v")])] "parameters-doc"
      [("parameters", Json.obj [("k", Json.str "v")])] rfl rfl rfl rfl).2
      [("k", Json.str "v")] (by simp [lookupKey])

/-- Evidence for C6 (code bug): with a failing credentials-file read (and
every other effect succeeding), `getAzCredentials` itself reports the read
error, but `newAcsEngine` IGNORES that result (azure.go:165 calls
`c.getAzCredentials()` without checking it) and still returns a constructed
Cluster, whose credentials are the zero value.  The claim — that the
constructor propagates the error and never returns a Cluster whose
credentials failed to load — is what every other call in the constructor
does, but not this one. -/
theorem newAcsEngine_swallows_credentials_error :
    (getAzCredentials flSample.acsCredentialsFile
        (Except.error "open /home/user/creds.toml: no such file or directory")
        (fun _ => Except.error "unreachable") cSample).1 =
      Except.error ("Error reading credentials file " ++ flSample.acsCredentialsFile ++ " " ++
        "open /home/user/creds.toml: no such file or directory") ∧
    (∃ c, newAcsEngine flSample "/home/user" "uuid-1" "/tmp/acs123"
        (Except.ok "ssh-rsa AAAA")
        (Except.error "open /home/user/creds.toml: no such file or directory")
        (fun _ => Except.error "unreachable") (Except.ok ()) (Except.ok ()) (Except.ok ()) =
      Except.ok c ∧ c.credentials = zeroCreds) := by
  exact ⟨rfl, ⟨_, rfl, rfl⟩⟩

/-- C9: `Up` has a value receiver, so a call `err := caller.Up()` can never
mutate the caller's Cluster: the only channel back to the caller is the
returned error (`UpGo`), and `callUp` — the Go call semantics — hands the
caller its own cluster back unchanged.  This is a fact about the copy, not
about the pipeline being read-only: the second conjunct exhibits a run in
which `Up`'s local copy really is mutated (the hyperkube build stage wrote
`acsCustomHyperKubeURL`), yet by the first conjunct none of it reaches the
caller, whether the run succeeds or fails. -/
theorem up_value_receiver_frame :
    (∀ (fl : Flags) (env : UpEnv) (caller : Cluster), (callUp fl env caller).1 = caller) ∧
    (∃ (fl : Flags) (env : UpEnv) (c : Cluster),
      (Up fl env c).cluster.acsCustomHyperKubeURL ≠ c.acsCustomHyperKubeURL) := by
  constructor
  · intro fl env caller
    rfl
  · exact ⟨flSample, envSample, cSample, by decide⟩
